import Mathlib

/-!
Shallow embedding of the Azure SDK VM client (`vnet_client.go` and the VM
client source file) for verifying the specification's claims about the
asynchronous-operation orchestration layer, the VM-creation workflow, and the
configuration-assembly helpers.

Modelling conventions:
  * Go `error` results are `Option Err` (`none` = nil error, `some e` = error);
    Go `(T, error)` results are `Except Err T`.  An error value is its message
    string, as produced by the corresponding `fmt.Errorf`/`errors.New` call.
  * External collaborators (Transport, Codec/xml.Marshal, the Operation
    Tracker `waitAsyncOperation`, the HostedService/Storage/Location/Image
    sub-clients, file reads, UUIDs, the wall clock) live outside the provided
    source file; following the spec's §6 they are modelled as an environment
    record `Env` of oracle functions, universally quantified in theorems.
  * Each embedded operation additionally returns the list of collaborator
    calls it issued (`List Event`), so that ordering/"exactly once"/"before
    any request" claims are statable.
  * Go `len` on a string counts UTF-8 bytes: modelled by `goLen`.  The
    `unicode` character classes are modelled on their ASCII fragment (the
    fragment exercised by the spec's examples).
-/

namespace AzureSdk

abbrev Err := String

/-! ## Constants from the VM client source -/

def osLinux : String := "Linux"

def osWindows : String := "Windows"

def provisioningConfDoesNotExistsError : String :=
  "You should set azure VM provisioning config first"

/-- Format string `"Certificate %s is invalid. Please specify %s certificate."` applied to its two arguments. -/
def invalidCertExtensionError (certPath ext : String) : String :=
  "Certificate " ++ certPath ++ " is invalid. Please specify " ++ ext ++ " certificate."

def invalidOSError : String :=
  "You must specify correct OS param. Valid values are 'Linux' and 'Windows'"

def invalidPasswordLengthError : String :=
  "Password must be between 4 and 30 characters."

def invalidPasswordError : String :=
  "Password must have at least one upper case, lower case and numeric character."

/-- Format string `"Role size: %s not available in location: %s."` applied to its two arguments. -/
def invalidRoleSizeInLocationError (size location : String) : String :=
  "Role size: " ++ size ++ " not available in location: " ++ location ++ "."

/-- URL template `"services/hostedservices/%s/deployments/%s/roles/%s"` applied to its arguments. -/
def azureRoleURL (cloudserviceName deploymentName roleName : String) : String :=
  "services/hostedservices/" ++ cloudserviceName ++ "/deployments/" ++ deploymentName ++
    "/roles/" ++ roleName

/-- URL template `"services/hostedservices/%s/deployments/%s/roleinstances/%s/Operations"` applied to its arguments. -/
def azureOperationsURL (cloudserviceName deploymentName roleName : String) : String :=
  "services/hostedservices/" ++ cloudserviceName ++ "/deployments/" ++ deploymentName ++
    "/roleinstances/" ++ roleName ++ "/Operations"

/-- URL template `"services/hostedservices/%s/certificates"` applied to its argument. -/
def azureCertificatListURL (cloudserviceName : String) : String :=
  "services/hostedservices/" ++ cloudserviceName ++ "/certificates"

/-- Modelled from the spec: `paramNotSpecifiedError` is a format constant of the
client defined outside the provided sources; no claim depends on its text. -/
def paramNotSpecifiedError (param : String) : String :=
  "Param " ++ param ++ " must be specified."

/-- Modelled from the spec: `invalidDnsLengthError` is a constant of the client
defined outside the provided sources; no claim depends on its text. -/
def invalidDnsLengthError : String :=
  "The DNS name must be between 3 and 25 characters."

/-- Modelled from the spec: `azureXmlns` is the XML namespace constant defined
outside the provided sources; no claim depends on its text. -/
def azureXmlns : String :=
  "http://schemas.microsoft.com/windowsazure"

/-- Modelled from the spec: `azureDeploymentListURL` is a one-argument URL
template defined outside the provided sources; the source applies it to the
role name.  No claim depends on its text. -/
def azureDeploymentListURL (roleName : String) : String :=
  "services/hostedservices/" ++ roleName ++ "/deployments"

/-! ## Go string length and the unicode character classes -/

/-- Go `len` on a string counts its UTF-8 bytes. -/
def goLen (s : String) : Nat := (s.data.map Char.utf8Size).sum

/-- Models `unicode.IsOneOf([]*unicode.RangeTable\x7bunicode.Upper, unicode.Title\x7d, r)`
on the ASCII fragment of those tables (the letters `A`–`Z`). -/
def isUpperOrTitleRune (c : Char) : Bool := 65 ≤ c.toNat && c.toNat ≤ 90

/-- Models `unicode.IsOneOf([]*unicode.RangeTable\x7bunicode.Lower\x7d, r)` on the
ASCII fragment of that table (the letters `a`–`z`). -/
def isLowerRune (c : Char) : Bool := 97 ≤ c.toNat && c.toNat ≤ 122

/-- Models `unicode.IsOneOf([]*unicode.RangeTable\x7bunicode.Number, unicode.Digit\x7d, r)`
on the ASCII fragment of those tables (the digits `0`–`9`). -/
def isNumericRune (c : Char) : Bool := 48 ≤ c.toNat && c.toNat ≤ 57

/-- `verifyPassword` from the source: the length bound `4 ≤ len ≤ 30` (Go `len`,
i.e. bytes) is checked first; then each of the three character classes must be
inhabited.  The Go source iterates the classes in randomized map order, but
every missing class produces the same `invalidPasswordError`, so the
sequential checks used here are observationally identical. -/
def verifyPassword (password : String) : Option Err :=
  if goLen password < 4 || goLen password > 30 then some invalidPasswordLengthError
  else if !password.data.any isUpperOrTitleRune then some invalidPasswordError
  else if !password.data.any isLowerRune then some invalidPasswordError
  else if !password.data.any isNumericRune then some invalidPasswordError
  else none

/-- `verifyDNSname` from the source: the byte length must be in `[3, 25]`. -/
def verifyDNSname (dns : String) : Option Err :=
  if goLen dns < 3 || goLen dns > 25 then some invalidDnsLengthError
  else none

/-! ## Data model

The struct declarations themselves live outside the provided source file;
their fields are modelled from the spec's data model (§3) together with every
field access the provided source performs.  Go zero values are the `empty*`
definitions. -/

structure InputEndpoint where
  name : String
  protocol : String
  port : Int
  localPort : Int
  deriving DecidableEq, Repr

def emptyInputEndpoint : InputEndpoint :=
  { name := "", protocol := "", port := 0, localPort := 0 }

structure PublicKey where
  fingerprint : String
  path : String
  deriving DecidableEq, Repr

structure SSH where
  publicKeys : List PublicKey
  deriving DecidableEq, Repr

def emptySSH : SSH := { publicKeys := [] }

structure ConfigurationSet where
  configurationSetType : String
  hostName : String
  userName : String
  userPassword : String
  disableSshPasswordAuthentication : Bool
  inputEndpoints : List InputEndpoint
  ssh : SSH
  deriving DecidableEq, Repr

def emptyConfigurationSet : ConfigurationSet :=
  { configurationSetType := "", hostName := "", userName := "", userPassword := "",
    disableSshPasswordAuthentication := false, inputEndpoints := [], ssh := emptySSH }

structure OSVirtualHardDisk where
  sourceImageName : String
  mediaLink : String
  deriving DecidableEq, Repr

def emptyOSVirtualHardDisk : OSVirtualHardDisk :=
  { sourceImageName := "", mediaLink := "" }

structure Role where
  roleName : String
  roleSize : String
  roleType : String
  provisionGuestAgent : Bool
  osVirtualHardDisk : OSVirtualHardDisk
  configurationSets : List ConfigurationSet
  useCertAuth : Bool
  certPath : String
  deriving DecidableEq, Repr

def emptyRole : Role :=
  { roleName := "", roleSize := "", roleType := "", provisionGuestAgent := false,
    osVirtualHardDisk := emptyOSVirtualHardDisk, configurationSets := [],
    useCertAuth := false, certPath := "" }

structure VMDeployment where
  name : String
  xmlns : String
  deploymentSlot : String
  label : String
  roleList : List Role
  deriving DecidableEq, Repr

structure ServiceCertificate where
  xmlns : String
  data : String
  certificateFormat : String
  deriving DecidableEq, Repr

structure StartRoleOperation where
  operationType : String
  xmlns : String
  deriving DecidableEq, Repr

structure ShutdownRoleOperation where
  operationType : String
  xmlns : String
  deriving DecidableEq, Repr

structure RestartRoleOperation where
  operationType : String
  xmlns : String
  deriving DecidableEq, Repr

/-- The Location record returned by the Location sub-client; the provided
source reads only `VirtualMachineRoleSizes`. -/
structure Location where
  name : String
  virtualMachineRoleSizes : List String
  deriving DecidableEq, Repr

/-- A storage service as returned by the StorageService sub-client; the
provided source passes it around opaquely, so only its name is modelled. -/
structure StorageService where
  serviceName : String
  deriving DecidableEq, Repr

/-- A decoded PEM block (`pem.Block`): the source uses only `Bytes`, the DER
payload. -/
structure PemBlock where
  blockType : String
  bytes : List Nat
  deriving DecidableEq, Repr

/-! ## Byte-level helpers: big-endian bytes, SHA-1 (`crypto/sha1`), uppercase
hex (`fmt.Sprintf "%X"` on a byte array), base64 (`encoding/base64`). -/

/-- The `k` big-endian base-256 digits of `n`. -/
def toBytesBE : Nat → Nat → List Nat
  | 0, _ => []
  | k+1, n => toBytesBE k (n / 256) ++ [n % 256]

/-- Groups of 4 consecutive bytes as big-endian 32-bit words (trailing partial
group dropped; inputs are always multiples of 4 bytes here). -/
def bytesToWords : List Nat → List Nat
  | a :: b :: c :: d :: rest => (((a * 256 + b) * 256 + c) * 256 + d) :: bytesToWords rest
  | _ => []

def chunksAux : Nat → List Nat → List (List Nat)
  | 0, _ => []
  | _, [] => []
  | fuel+1, ws => ws.take 16 :: chunksAux fuel (ws.drop 16)

/-- Split a word list into 16-word blocks. -/
def chunks (ws : List Nat) : List (List Nat) := chunksAux ws.length ws

/-- SHA-1 padding: append `0x80`, zeros to 56 mod 64 bytes, then the bit
length as 8 big-endian bytes. -/
def sha1pad (msg : List Nat) : List Nat :=
  let padLen := (55 + 64 - msg.length % 64) % 64
  msg ++ [0x80] ++ List.replicate padLen 0 ++ toBytesBE 8 (8 * msg.length)

/-- 32-bit left rotation. -/
def rotl (n x : Nat) : Nat := ((x <<< n) ||| (x >>> (32 - n))) % 2 ^ 32

def sha1ExtendStep (w : List Nat) : List Nat :=
  let l := w.length
  w ++ [rotl 1 ((w.getD (l-3) 0) ^^^ (w.getD (l-8) 0) ^^^ (w.getD (l-14) 0) ^^^ (w.getD (l-16) 0))]

def sha1Extend : Nat → List Nat → List Nat
  | 0, w => w
  | k+1, w => sha1Extend k (sha1ExtendStep w)

def sha1f (t b c d : Nat) : Nat :=
  if t < 20 then (b &&& c) ||| ((0xFFFFFFFF ^^^ b) &&& d)
  else if t < 40 then b ^^^ c ^^^ d
  else if t < 60 then (b &&& c) ||| (b &&& d) ||| (c &&& d)
  else b ^^^ c ^^^ d

def sha1k (t : Nat) : Nat :=
  if t < 20 then 0x5A827999
  else if t < 40 then 0x6ED9EBA1
  else if t < 60 then 0x8F1BBCDC
  else 0xCA62C1D6

def sha1Round (st : Nat × Nat × Nat × Nat × Nat) (t wt : Nat) : Nat × Nat × Nat × Nat × Nat :=
  let (a, b, c, d, e) := st
  let temp := (rotl 5 a + sha1f t b c d + e + sha1k t + wt) % 2 ^ 32
  (temp, a, rotl 30 b, c, d)

def sha1Chunk (h : List Nat) (chunk : List Nat) : List Nat :=
  let w := sha1Extend 64 chunk
  let st0 := (h.getD 0 0, h.getD 1 0, h.getD 2 0, h.getD 3 0, h.getD 4 0)
  let stf := (List.range 80).foldl (fun st t => sha1Round st t (w.getD t 0)) st0
  [(h.getD 0 0 + stf.1) % 2 ^ 32, (h.getD 1 0 + stf.2.1) % 2 ^ 32,
   (h.getD 2 0 + stf.2.2.1) % 2 ^ 32, (h.getD 3 0 + stf.2.2.2.1) % 2 ^ 32,
   (h.getD 4 0 + stf.2.2.2.2) % 2 ^ 32]

/-- SHA-1 of a byte sequence (`sha1.Sum`), as its 20 digest bytes. -/
def sha1 (msg : List Nat) : List Nat :=
  let blocks := chunks (bytesToWords (sha1pad msg))
  let h := blocks.foldl sha1Chunk [0x67452301, 0xEFCDAB89, 0x98BADCFE, 0x10325476, 0xC3D2E1F0]
  (h.map (toBytesBE 4)).flatten

def hexDigitU (n : Nat) : Char := "0123456789ABCDEF".data.getD n '0'

def byteToHexU (b : Nat) : List Char := [hexDigitU (b / 16 % 16), hexDigitU (b % 16)]

/-- Go `fmt.Sprintf "%X"` applied to a byte array: each byte as two uppercase
hex digits, concatenated without separators. -/
def hexUpper (bs : List Nat) : String := String.mk (bs.map byteToHexU).flatten

def base64Chars : List Char :=
  "ABCDEFGHIJKLMNOPQRSTUVWXYZabcdefghijklmnopqrstuvwxyz0123456789+/".data

def b64c (n : Nat) : Char := base64Chars.getD n 'A'

/-- Standard base64 with `=` padding (`base64.StdEncoding.EncodeToString`). -/
def base64EncodeAux : List Nat → List Char
  | [] => []
  | [b1] => [b64c (b1 / 4), b64c (b1 % 4 * 16), '=', '=']
  | [b1, b2] => [b64c (b1 / 4), b64c (b1 % 4 * 16 + b2 / 16), b64c (b2 % 16 * 4), '=']
  | b1 :: b2 :: b3 :: rest =>
      b64c (b1 / 4) :: b64c (b1 % 4 * 16 + b2 / 16) :: b64c (b2 % 16 * 4 + b3 / 64) ::
        b64c (b3 % 64) :: base64EncodeAux rest

def base64Encode (bs : List Nat) : String := String.mk (base64EncodeAux bs)

/-- Go `string(bytes)` conversion; byte values are interpreted as code points,
which agrees with Go on ASCII data (the conversion's text is immaterial to
every claim). -/
def stringOfBytes (bs : List Nat) : String :=
  String.mk (bs.map fun b => Char.ofNat b)

/-! ## Collaborator calls and the environment

`Event` records each call the embedded operations issue against a
collaborator, in order.  `Env` packs the collaborator oracles (spec §6). -/

inductive Event where
  | createHostedService (dnsName location label : String)
  | deleteHostedService (dnsName : String)
  | waitOp (requestId : String)
  | postRequest (url : String)
  | deleteRequest (url : String)
  | readFile (path : String)
  | getLocation (name : String)
  | resolveImage (imageName : String)
  | getStorageByLocation (location : String)
  | createStorage (serviceName location : String)
  | getBlobEndpoint (serviceName : String)
  deriving DecidableEq, Repr

structure Env where
  /-- `HostedServiceClient.CreateHostedService`: returns a requestId. -/
  createHostedService : String → String → String → Except Err String
  /-- `HostedServiceClient.DeleteHostedService`: returns a requestId. -/
  deleteHostedService : String → Except Err String
  /-- The Operation Tracker `Client.waitAsyncOperation`: polls the operation
  behind a requestId to a terminal state; `none` on `Succeeded`, `some e` on
  `Failed` (carrying the provider error verbatim) or timeout. -/
  waitAsyncOperation : String → Option Err
  /-- `Client.sendAzurePostRequest`: returns a requestId. -/
  sendAzurePostRequest : String → List Nat → Except Err String
  /-- `Client.sendAzureDeleteRequest`: returns a requestId. -/
  sendAzureDeleteRequest : String → Except Err String
  /-- `ioutil.ReadFile`. -/
  readFile : String → Except Err (List Nat)
  /-- `pem.Decode`: the first PEM block and the rest of the input. -/
  pemDecode : List Nat → Option PemBlock × List Nat
  /-- `xml.Marshal` on a `ServiceCertificate`. -/
  marshalCert : ServiceCertificate → Except Err (List Nat)
  /-- `xml.Marshal` on a `VMDeployment`. -/
  marshalDeployment : VMDeployment → Except Err (List Nat)
  /-- `xml.Marshal` on a `StartRoleOperation`. -/
  marshalStartRoleOp : StartRoleOperation → Except Err (List Nat)
  /-- `xml.Marshal` on a `ShutdownRoleOperation`. -/
  marshalShutdownRoleOp : ShutdownRoleOperation → Except Err (List Nat)
  /-- `xml.Marshal` on a `RestartRoleOperation`. -/
  marshalRestartRoleOp : RestartRoleOperation → Except Err (List Nat)
  /-- `LocationClient.GetLocation`. -/
  getLocation : String → Except Err Location
  /-- `ImageClient.ResolveImageName`: `none` when the image resolves. -/
  resolveImageName : String → Option Err
  /-- `StorageServiceClient.GetStorageServiceByLocation`: `ok none` when no
  storage service exists for the location. -/
  getStorageServiceByLocation : String → Except Err (Option StorageService)
  /-- `newUUID`. -/
  newUUID : Except Err String
  /-- `StorageServiceClient.CreateStorageService`. -/
  createStorageService : String → String → Except Err StorageService
  /-- `StorageServiceClient.GetBlobEndpoint`. -/
  getBlobEndpoint : StorageService → Except Err String
  /-- `time.Now().Local().Format("20060102150405")`. -/
  now : String

/-! ## Private builder methods of the VM client -/

def createStartRoleOperation : StartRoleOperation :=
  { operationType := "StartRoleOperation", xmlns := azureXmlns }

def createShutdowRoleOperation : ShutdownRoleOperation :=
  { operationType := "ShutdownRoleOperation", xmlns := azureXmlns }

def createRestartRoleOperation : RestartRoleOperation :=
  { operationType := "RestartRoleOperation", xmlns := azureXmlns }

def createEndpoint (name protocol : String) (extertalPort internalPort : Int) : InputEndpoint :=
  { name := name, protocol := protocol, port := extertalPort, localPort := internalPort }

/-- `createNetworkConfig`: for Linux an ssh endpoint is added; for Windows the
zero-value endpoint is appended (the rdp endpoint is a TODO in the source);
any other OS string is rejected with `invalidOSError`. -/
def createNetworkConfig (os : String) (sshPort : Int) : Except Err ConfigurationSet :=
  let networkConfig := { emptyConfigurationSet with configurationSetType := "NetworkConfiguration" }
  if os = osLinux then
    .ok { networkConfig with inputEndpoints := [createEndpoint "ssh" "tcp" sshPort 22] }
  else if os = osWindows then
    .ok { networkConfig with inputEndpoints := [emptyInputEndpoint] }
  else
    .error invalidOSError

def createVMDeploymentConfig (role : Role) : VMDeployment :=
  { name := role.roleName, xmlns := azureXmlns, deploymentSlot := "Production",
    label := role.roleName, roleList := [role] }

/-- The segment of `certPath` after its last dot: `certParts[len(certParts)-1]`
for `certParts := strings.Split(certPath, ".")`. -/
def lastSplitPart (s : String) : String :=
  String.mk (s.data.foldl (fun acc c => if c = '.' then [] else acc ++ [c]) [])

def checkServiceCertExtension (certPath : String) : Option Err :=
  let certExt := lastSplitPart certPath
  if certExt ≠ "pem" then some (invalidCertExtensionError certPath "pem") else none

/-- `getServiceCertFingerprint`: read the certificate file, decode its first
PEM block, and render the SHA-1 digest of the block's DER bytes as uppercase
hex; a failed PEM decode is reported as `string(rest)`. -/
def getServiceCertFingerprint (env : Env) (certPath : String) : Except Err String :=
  match env.readFile certPath with
  | .error readErr => .error readErr
  | .ok certData =>
    match env.pemDecode certData with
    | (none, rest) => .error (stringOfBytes rest)
    | (some block, _) => .ok (hexUpper (sha1 block.bytes))

def createSshConfig (env : Env) (certPath userName : String) : Except Err SSH :=
  match checkServiceCertExtension certPath with
  | some e => .error e
  | none =>
    match getServiceCertFingerprint env certPath with
    | .error e => .error e
    | .ok fingerprint =>
      .ok { publicKeys := [{ fingerprint := fingerprint,
                             path := "/home/" ++ userName ++ "/.ssh/authorized_keys" }] }

/-- The tail of `createLinuxProvisioningConfig` after the password branch:
populate the provisioning fields with the (possibly substituted) password and
attach the ssh key configuration when a certificate path was given. -/
def linuxProvisioningWithPassword (env : Env) (dnsName userName certPath password : String)
    (disableSsh : Bool) : Except Err ConfigurationSet :=
  let base := { emptyConfigurationSet with
                disableSshPasswordAuthentication := disableSsh,
                configurationSetType := "LinuxProvisioningConfiguration",
                hostName := dnsName, userName := userName, userPassword := password }
  if goLen certPath > 0 then
    match createSshConfig env certPath userName with
    | .error e => .error e
    | .ok sshConfig => .ok { base with ssh := sshConfig }
  else
    .ok base

/-- `createLinuxProvisioningConfig`: an empty password disables ssh password
authentication and substitutes the dummy password the remote API requires;
a non-empty password must pass `verifyPassword`. -/
def createLinuxProvisioningConfig (env : Env) (dnsName userName userPassword certPath : String) :
    Except Err ConfigurationSet :=
  if goLen userPassword = 0 then
    linuxProvisioningWithPassword env dnsName userName certPath "P@ssword1" true
  else
    match verifyPassword userPassword with
    | some e => .error e
    | none => linuxProvisioningWithPassword env dnsName userName certPath userPassword false

def createServiceCertDeploymentConf (env : Env) (certPath : String) :
    Except Err ServiceCertificate × List Event :=
  match env.readFile certPath with
  | .error e => (.error e, [.readFile certPath])
  | .ok data =>
    (.ok { xmlns := azureXmlns, data := base64Encode data, certificateFormat := "pfx" },
     [.readFile certPath])

/-- `uploadServiceCert`: build and marshal the certificate document, POST it,
and await the resulting asynchronous operation; this is the one call site in
the file that propagates the Tracker's result. -/
def uploadServiceCert (env : Env) (dnsName certPath : String) : Option Err × List Event :=
  match createServiceCertDeploymentConf env certPath with
  | (.error e, tr) => (some e, tr)
  | (.ok certificateConfig, tr) =>
    match env.marshalCert certificateConfig with
    | .error e => (some e, tr)
    | .ok certificateConfigBytes =>
      let requestURL := azureCertificatListURL dnsName
      match env.sendAzurePostRequest requestURL certificateConfigBytes with
      | .error e => (some e, tr ++ [.postRequest requestURL])
      | .ok requestId =>
        (env.waitAsyncOperation requestId, tr ++ [.postRequest requestURL, .waitOp requestId])

/-! ## Storage / VHD / role construction -/

def vhdMediaLinkFromService (env : Env) (dnsName : String) (storageService : StorageService)
    (tr : List Event) : Except Err String × List Event :=
  match env.getBlobEndpoint storageService with
  | .error e => (.error e, tr ++ [.getBlobEndpoint storageService.serviceName])
  | .ok blobEndpoint =>
    (.ok (blobEndpoint ++ "vhds/" ++ dnsName ++ "-" ++ env.now ++ ".vhd"),
     tr ++ [.getBlobEndpoint storageService.serviceName])

/-- `getVHDMediaLink`: look up a storage service by location; when none exists,
create one named `"portalvhds" ++ uuid`; then derive the disk URL from the
service's blob endpoint. -/
def getVHDMediaLink (env : Env) (dnsName location : String) : Except Err String × List Event :=
  match env.getStorageServiceByLocation location with
  | .error e => (.error e, [.getStorageByLocation location])
  | .ok (some storageService) =>
    vhdMediaLinkFromService env dnsName storageService [.getStorageByLocation location]
  | .ok none =>
    match env.newUUID with
    | .error e => (.error e, [.getStorageByLocation location])
    | .ok uuid =>
      let serviceName := "portalvhds" ++ uuid
      match env.createStorageService serviceName location with
      | .error e => (.error e, [.getStorageByLocation location, .createStorage serviceName location])
      | .ok storageService =>
        vhdMediaLinkFromService env dnsName storageService
          [.getStorageByLocation location, .createStorage serviceName location]

def createOSVirtualHardDisk (env : Env) (dnsName imageName location : String) :
    Except Err OSVirtualHardDisk × List Event :=
  match env.resolveImageName imageName with
  | some e => (.error e, [.resolveImage imageName])
  | none =>
    match getVHDMediaLink env dnsName location with
    | (.error e, tr) => (.error e, .resolveImage imageName :: tr)
    | (.ok mediaLink, tr) =>
      (.ok { sourceImageName := imageName, mediaLink := mediaLink },
       .resolveImage imageName :: tr)

def createAzureVMRole (env : Env) (name instanceSize imageName location : String) :
    Except Err Role × List Event :=
  match createOSVirtualHardDisk env name imageName location with
  | (.error e, tr) => (.error e, tr)
  | (.ok disk, tr) =>
    (.ok { emptyRole with
           roleName := name, roleSize := instanceSize, roleType := "PersistentVMRole",
           provisionGuestAgent := true, osVirtualHardDisk := disk }, tr)

def isInstanceSizeAvailableInLocation (location : Location) (instanceSize : String) :
    Except Err Bool :=
  if goLen instanceSize = 0 then .error (paramNotSpecifiedError "vmSize")
  else .ok (location.virtualMachineRoleSizes.contains instanceSize)

/-! ## Public operations of the VM client -/

/-- Lines 72–78 of the VM-creation workflow: when certificate auth is
requested, upload the service certificate; on failure issue
`DeleteHostedService` (whose result the source discards) and return the
upload error. -/
def certUploadPhase (env : Env) (role : Role) (dnsName : String) : Option Err × List Event :=
  if role.useCertAuth then
    match uploadServiceCert env dnsName role.certPath with
    | (some e, tr) => (some e, tr ++ [.deleteHostedService dnsName])
    | (none, tr) => (none, tr)
  else (none, [])

/-- Lines 80–96 of the VM-creation workflow: marshal the deployment document
and POST it; on marshal or POST failure issue `DeleteHostedService` (result
discarded) and return that failure; on success the source awaits the
operation but discards the Tracker's result and returns nil. -/
def deployPhase (env : Env) (role : Role) (dnsName : String) : Option Err × List Event :=
  let vMDeployment := createVMDeploymentConfig role
  match env.marshalDeployment vMDeployment with
  | .error e => (some e, [.deleteHostedService dnsName])
  | .ok vMDeploymentBytes =>
    let requestURL := azureDeploymentListURL role.roleName
    match env.sendAzurePostRequest requestURL vMDeploymentBytes with
    | .error e => (some e, [.postRequest requestURL, .deleteHostedService dnsName])
    | .ok requestId =>
      (none, [.postRequest requestURL, .waitOp requestId])

/-- `CreateAzureVM`: validate parameters and the DNS name, create the hosted
service and await its operation (the source discards this Tracker result),
then run the certificate phase and the deployment phase. -/
def CreateAzureVM (env : Env) (azureVMConfiguration : Option Role) (dnsName location : String) :
    Option Err × List Event :=
  match azureVMConfiguration with
  | none => (some (paramNotSpecifiedError "azureVMConfiguration"), [])
  | some role =>
    if goLen dnsName = 0 then (some (paramNotSpecifiedError "dnsName"), [])
    else if goLen location = 0 then (some (paramNotSpecifiedError "location"), [])
    else
      match verifyDNSname dnsName with
      | some e => (some e, [])
      | none =>
        match env.createHostedService dnsName location "" with
        | .error e => (some e, [.createHostedService dnsName location ""])
        | .ok requestId =>
          let tr1 : List Event := [.createHostedService dnsName location "", .waitOp requestId]
          match certUploadPhase env role dnsName with
          | (some e, tr2) => (some e, tr1 ++ tr2)
          | (none, tr2) =>
            match deployPhase env role dnsName with
            | (r, tr3) => (r, tr1 ++ tr2 ++ tr3)

/-- `CreateAzureVMConfiguration`: validate parameters and the DNS name, fetch
the location, check the instance size against the location's available sizes,
then build the role. -/
def CreateAzureVMConfiguration (env : Env) (dnsName instanceSize imageName location : String) :
    Except Err Role × List Event :=
  if goLen dnsName = 0 then (.error (paramNotSpecifiedError "dnsName"), [])
  else if goLen instanceSize = 0 then (.error (paramNotSpecifiedError "instanceSize"), [])
  else if goLen imageName = 0 then (.error (paramNotSpecifiedError "imageName"), [])
  else if goLen location = 0 then (.error (paramNotSpecifiedError "location"), [])
  else
    match verifyDNSname dnsName with
    | some e => (.error e, [])
    | none =>
      match env.getLocation location with
      | .error e => (.error e, [.getLocation location])
      | .ok locationInfo =>
        match isInstanceSizeAvailableInLocation locationInfo instanceSize with
        | .error e => (.error e, [.getLocation location])
        | .ok sizeAvailable =>
          if sizeAvailable = false then
            (.error (invalidRoleSizeInLocationError instanceSize location), [.getLocation location])
          else
            match createAzureVMRole env dnsName instanceSize imageName location with
            | (.error e, tr) => (.error e, .getLocation location :: tr)
            | (.ok role, tr) => (.ok role, .getLocation location :: tr)

/-- `AddAzureLinuxProvisioningConfig`: build the provisioning and network
configuration sets and assign them as the role's configuration sets
(replacing any previous ones).  The source's network-error branch returns
`(nil, err)` with `err` known nil — modelled as `.ok none`; a genuine success
is `.ok (some role)`. -/
def AddAzureLinuxProvisioningConfig (env : Env) (azureVMConfiguration : Option Role)
    (userName password certPath : String) (sshPort : Int) : Except Err (Option Role) :=
  match azureVMConfiguration with
  | none => .error (paramNotSpecifiedError "azureVMConfiguration")
  | some role =>
    if goLen userName = 0 then .error (paramNotSpecifiedError "userName")
    else
      match createLinuxProvisioningConfig env role.roleName userName password certPath with
      | .error e => .error e
      | .ok provisioningConfig =>
        match createNetworkConfig osLinux sshPort with
        | .error _ => .ok none
        | .ok networkConfig =>
          .ok (some { role with
                      configurationSets := [provisioningConfig, networkConfig],
                      useCertAuth := if goLen certPath > 0 then true else role.useCertAuth,
                      certPath := if goLen certPath > 0 then certPath else role.certPath })

/-- `StartRole`: marshal the start operation, POST it, await the operation —
the source discards the Tracker's result and returns nil. -/
def StartRole (env : Env) (cloudserviceName deploymentName roleName : String) :
    Option Err × List Event :=
  if goLen cloudserviceName = 0 then (some (paramNotSpecifiedError "cloudserviceName"), [])
  else if goLen deploymentName = 0 then (some (paramNotSpecifiedError "deploymentName"), [])
  else if goLen roleName = 0 then (some (paramNotSpecifiedError "roleName"), [])
  else
    match env.marshalStartRoleOp createStartRoleOperation with
    | .error e => (some e, [])
    | .ok opBytes =>
      let requestURL := azureOperationsURL cloudserviceName deploymentName roleName
      match env.sendAzurePostRequest requestURL opBytes with
      | .error e => (some e, [.postRequest requestURL])
      | .ok requestId => (none, [.postRequest requestURL, .waitOp requestId])

/-- `ShutdownRole`: same shape as `StartRole`; the Tracker's result is
discarded and nil returned. -/
def ShutdownRole (env : Env) (cloudserviceName deploymentName roleName : String) :
    Option Err × List Event :=
  if goLen cloudserviceName = 0 then (some (paramNotSpecifiedError "cloudserviceName"), [])
  else if goLen deploymentName = 0 then (some (paramNotSpecifiedError "deploymentName"), [])
  else if goLen roleName = 0 then (some (paramNotSpecifiedError "roleName"), [])
  else
    match env.marshalShutdownRoleOp createShutdowRoleOperation with
    | .error e => (some e, [])
    | .ok opBytes =>
      let requestURL := azureOperationsURL cloudserviceName deploymentName roleName
      match env.sendAzurePostRequest requestURL opBytes with
      | .error e => (some e, [.postRequest requestURL])
      | .ok requestId => (none, [.postRequest requestURL, .waitOp requestId])

/-- `RestartRole`: same shape as `StartRole`; the Tracker's result is
discarded and nil returned. -/
def RestartRole (env : Env) (cloudserviceName deploymentName roleName : String) :
    Option Err × List Event :=
  if goLen cloudserviceName = 0 then (some (paramNotSpecifiedError "cloudserviceName"), [])
  else if goLen deploymentName = 0 then (some (paramNotSpecifiedError "deploymentName"), [])
  else if goLen roleName = 0 then (some (paramNotSpecifiedError "roleName"), [])
  else
    match env.marshalRestartRoleOp createRestartRoleOperation with
    | .error e => (some e, [])
    | .ok opBytes =>
      let requestURL := azureOperationsURL cloudserviceName deploymentName roleName
      match env.sendAzurePostRequest requestURL opBytes with
      | .error e => (some e, [.postRequest requestURL])
      | .ok requestId => (none, [.postRequest requestURL, .waitOp requestId])

/-- `DeleteRole`: DELETE the role URL, await the operation — the source
discards the Tracker's result and returns nil. -/
def DeleteRole (env : Env) (cloudserviceName deploymentName roleName : String) :
    Option Err × List Event :=
  if goLen cloudserviceName = 0 then (some (paramNotSpecifiedError "cloudserviceName"), [])
  else if goLen deploymentName = 0 then (some (paramNotSpecifiedError "deploymentName"), [])
  else if goLen roleName = 0 then (some (paramNotSpecifiedError "roleName"), [])
  else
    let requestURL := azureRoleURL cloudserviceName deploymentName roleName
    match env.sendAzureDeleteRequest requestURL with
    | .error e => (some e, [.deleteRequest requestURL])
    | .ok requestId => (none, [.deleteRequest requestURL, .waitOp requestId])

/-! ## Helper predicates and lemmas -/

def isDeleteHostedServiceEvent : Event → Bool
  | .deleteHostedService _ => true
  | _ => false

/-- Number of `DeleteHostedService` calls in a trace. -/
def countDeleteHostedService (tr : List Event) : Nat :=
  (tr.filter isDeleteHostedServiceEvent).length

def isCreateStorageEvent : Event → Bool
  | .createStorage _ _ => true
  | _ => false

/-- Number of `CreateStorageService` calls in a trace. -/
def countCreateStorage (tr : List Event) : Nat :=
  (tr.filter isCreateStorageEvent).length

theorem countDeleteHostedService_append (t1 t2 : List Event) :
    countDeleteHostedService (t1 ++ t2) =
      countDeleteHostedService t1 + countDeleteHostedService t2 := by
  simp [countDeleteHostedService, List.filter_append]

/-- The certificate-upload step never issues a `DeleteHostedService` call. -/
theorem uploadServiceCert_no_delete (env : Env) (dnsName certPath : String) :
    countDeleteHostedService (uploadServiceCert env dnsName certPath).2 = 0 := by
  unfold uploadServiceCert createServiceCertDeploymentConf
  cases h1 : env.readFile certPath with
  | error e => simp [countDeleteHostedService, isDeleteHostedServiceEvent]
  | ok data =>
    cases h2 : env.marshalCert { xmlns := azureXmlns, data := base64Encode data,
                                 certificateFormat := "pfx" } with
    | error e => simp [h2, countDeleteHostedService, isDeleteHostedServiceEvent]
    | ok bytes =>
      cases h3 : env.sendAzurePostRequest (azureCertificatListURL dnsName) bytes with
      | error e => simp [h2, h3, countDeleteHostedService, isDeleteHostedServiceEvent]
      | ok requestId => simp [h2, h3, countDeleteHostedService, isDeleteHostedServiceEvent]

/-- On ASCII data, the Go byte length of a string is its character count. -/
theorem sum_utf8Size_ascii (l : List Char) (h : ∀ c ∈ l, c.val ≤ 127) :
    (l.map Char.utf8Size).sum = l.length := by
  induction l with
  | nil => simp
  | cons c cs ih =>
    have hc : c.utf8Size = 1 := by
      have h127 : c.val ≤ 127 := h c (by simp)
      simp only [Char.utf8Size]
      have heq : (127 : UInt32) = UInt32.ofNatCore 127 Char.utf8Size.proof_1 := by decide
      rw [← heq]
      simp [h127]
    simp [hc, ih fun x hx => h x (by simp [hx])]
    omega

theorem goLen_ascii (s : String) (h : ∀ c ∈ s.data, c.val ≤ 127) :
    goLen s = s.data.length :=
  sum_utf8Size_ascii s.data h

theorem toBytesBE_length (k : Nat) : ∀ n, (toBytesBE k n).length = k := by
  induction k with
  | zero => intro n; simp [toBytesBE]
  | succ k ih => intro n; simp [toBytesBE, ih]

theorem toBytesBE_lt (k : Nat) : ∀ n, ∀ b ∈ toBytesBE k n, b < 256 := by
  induction k with
  | zero => intro n b hb; simp [toBytesBE] at hb
  | succ k ih =>
    intro n b hb
    simp only [toBytesBE, List.mem_append, List.mem_singleton] at hb
    rcases hb with hb | hb
    · exact ih _ b hb
    · subst hb; exact Nat.mod_lt _ (by omega)

theorem sha1Chunk_length (h c : List Nat) : (sha1Chunk h c).length = 5 := by
  simp [sha1Chunk]

theorem foldl_sha1Chunk_length (blocks : List (List Nat)) :
    ∀ h : List Nat, (blocks.foldl sha1Chunk h).length = 5 ∨ blocks = [] := by
  induction blocks with
  | nil => intro h; right; rfl
  | cons b bs ih =>
    intro h
    left
    rcases ih (sha1Chunk h b) with hlen | hnil
    · simpa using hlen
    · subst hnil; simpa using sha1Chunk_length h b

theorem sum_map_const_four (l : List Nat) : (l.map fun _ => 4).sum = 4 * l.length := by
  induction l with
  | nil => simp
  | cons x xs ih => simp [ih]; ring

/-- A SHA-1 digest has exactly 20 bytes. -/
theorem sha1_length (msg : List Nat) : (sha1 msg).length = 20 := by
  unfold sha1
  have h5 : ((chunks (bytesToWords (sha1pad msg))).foldl sha1Chunk
      [0x67452301, 0xEFCDAB89, 0x98BADCFE, 0x10325476, 0xC3D2E1F0]).length = 5 := by
    rcases foldl_sha1Chunk_length (chunks (bytesToWords (sha1pad msg)))
        [0x67452301, 0xEFCDAB89, 0x98BADCFE, 0x10325476, 0xC3D2E1F0] with h | h
    · exact h
    · rw [h]; rfl
  simp only [List.length_flatten, List.map_map]
  have : (List.length ∘ toBytesBE 4) = fun _ : Nat => 4 := by
    funext n; simp [toBytesBE_length]
  rw [this, sum_map_const_four, h5]

theorem hexDigitU_mem (n : Nat) : hexDigitU n ∈ "0123456789ABCDEF".data := by
  rcases Nat.lt_or_ge n 16 with h | h
  · interval_cases n <;> decide
  · have hlen : ("0123456789ABCDEF".data).length ≤ n := by
      have : ("0123456789ABCDEF".data).length = 16 := by decide
      omega
    have h0 : hexDigitU n = '0' := List.getD_eq_default _ _ hlen
    rw [h0]
    decide

/-- Every character of a `hexUpper` rendering is an uppercase hex digit (in
particular there are no separators). -/
theorem hexUpper_chars (bs : List Nat) :
    ∀ c ∈ (hexUpper bs).data, c ∈ "0123456789ABCDEF".data := by
  intro c hc
  simp only [hexUpper, List.mem_flatten, List.mem_map] at hc
  obtain ⟨l, ⟨b, _, hbl⟩, hcl⟩ := hc
  subst hbl
  simp only [byteToHexU, List.mem_cons, List.not_mem_nil, or_false] at hcl
  rcases hcl with h | h <;> subst h <;> exact hexDigitU_mem _

theorem hexUpper_length (bs : List Nat) : (hexUpper bs).length = 2 * bs.length := by
  simp only [hexUpper, String.length, List.length_flatten, List.map_map]
  have : (List.length ∘ byteToHexU) = fun _ : Nat => 2 := by
    funext b; simp [byteToHexU]
  rw [this]
  induction bs with
  | nil => simp
  | cons x xs ih => simp [ih]; ring

/-! ## Concrete environments and roles for witnesses and counterexamples -/

/-- An environment in which every collaborator call succeeds. -/
def envBase : Env :=
  { createHostedService := fun _ _ _ => .ok "req-hs",
    deleteHostedService := fun _ => .ok "req-del",
    waitAsyncOperation := fun _ => none,
    sendAzurePostRequest := fun _ _ => .ok "req-post",
    sendAzureDeleteRequest := fun _ => .ok "req-delete",
    readFile := fun _ => .ok [1, 2, 3],
    pemDecode := fun bs => (some { blockType := "CERTIFICATE", bytes := bs }, []),
    marshalCert := fun _ => .ok [60, 62],
    marshalDeployment := fun _ => .ok [60, 62],
    marshalStartRoleOp := fun _ => .ok [60, 62],
    marshalShutdownRoleOp := fun _ => .ok [60, 62],
    marshalRestartRoleOp := fun _ => .ok [60, 62],
    getLocation := fun name => .ok { name := name, virtualMachineRoleSizes := ["Small"] },
    resolveImageName := fun _ => none,
    getStorageServiceByLocation := fun _ => .ok (some { serviceName := "existingstore" }),
    newUUID := .ok "1234abcd",
    createStorageService := fun name _ => .ok { serviceName := name },
    getBlobEndpoint := fun s => .ok ("https://" ++ s.serviceName ++ ".blob.net/"),
    now := "20140101000000" }

def roleNoCert : Role := { emptyRole with roleName := "server1" }

def roleCert : Role :=
  { emptyRole with roleName := "server1", useCertAuth := true, certPath := "mycert.pem" }

/-- Every awaited operation ends in terminal status Failed. -/
def envTrackerFails : Env :=
  { envBase with waitAsyncOperation := fun _ => some "RemoteOperationFailed: InternalError" }

/-- Role-operation submissions succeed but every awaited operation Fails. -/
def envRoleOpFails : Env :=
  { envBase with waitAsyncOperation := fun _ => some "ResourceNotFound: role instance missing" }

/-- The certificate-upload POST fails; everything else succeeds. -/
def envCertUploadFails : Env :=
  { envBase with
    sendAzurePostRequest := fun url _ =>
      if url = azureCertificatListURL "mydns" then .error "certificate upload failed"
      else .ok "req-post" }

/-- The certificate-upload POST fails and the compensating hosted-service
deletion also fails. -/
def envCompensationFails : Env :=
  { envCertUploadFails with deleteHostedService := fun _ => .error "hosted-service deletion failed" }

/-- No storage service exists yet at any location. -/
def envStorageAbsent : Env :=
  { envBase with getStorageServiceByLocation := fun _ => .ok none }

/-! ## Claim theorems -/

set_option maxRecDepth 100000

/-- C1: the claim says `CreateAzureVM` aborts with the Tracker's failure after
the hosted-service creation `await` fails, before certificate upload or
deployment submission.  The code bug: the source discards the result of
`waitAsyncOperation(requestId)` after `CreateHostedService`.  Concretely, with
a Tracker that reports failure for the creation operation (`"req-hs"`), the
call still submits the deployment (the `postRequest` event) and returns
success (`none`). -/
theorem createAzureVM_ignores_hostedService_tracker_failure :
    envTrackerFails.waitAsyncOperation "req-hs" = some "RemoteOperationFailed: InternalError"
    ∧ CreateAzureVM envTrackerFails (some roleNoCert) "mydns" "West US" =
        (none,
         [.createHostedService "mydns" "West US" "", .waitOp "req-hs",
          .postRequest (azureDeploymentListURL "server1"), .waitOp "req-post"]) := by
  exact ⟨rfl, by decide⟩

/-- C2: the claim says Start/Shutdown/Restart/DeleteRole return the awaited
operation's failure verbatim when the submission succeeds but the operation
reaches terminal status Failed.  The code bug: all four discard the Tracker's
result and return nil.  Concretely, with a Tracker that fails every awaited
operation, all four calls return success (`none`) after awaiting. -/
theorem roleOperations_ignore_tracker_failure :
    envRoleOpFails.waitAsyncOperation "req-post" = some "ResourceNotFound: role instance missing"
    ∧ envRoleOpFails.waitAsyncOperation "req-delete" = some "ResourceNotFound: role instance missing"
    ∧ StartRole envRoleOpFails "mycloudservice" "mydeployment" "web" =
        (none, [.postRequest (azureOperationsURL "mycloudservice" "mydeployment" "web"),
                .waitOp "req-post"])
    ∧ ShutdownRole envRoleOpFails "mycloudservice" "mydeployment" "web" =
        (none, [.postRequest (azureOperationsURL "mycloudservice" "mydeployment" "web"),
                .waitOp "req-post"])
    ∧ RestartRole envRoleOpFails "mycloudservice" "mydeployment" "web" =
        (none, [.postRequest (azureOperationsURL "mycloudservice" "mydeployment" "web"),
                .waitOp "req-post"])
    ∧ DeleteRole envRoleOpFails "mycloudservice" "mydeployment" "web" =
        (none, [.deleteRequest (azureRoleURL "mycloudservice" "mydeployment" "web"),
                .waitOp "req-delete"]) := by
  exact ⟨rfl, rfl, by decide, by decide, by decide, by decide⟩

/-- C3: in every run of the VM-creation workflow in which the hosted-service
creation submission succeeds, certificate auth is requested, and the
certificate upload fails with error `e`, the workflow issues the
hosted-service deletion exactly once and returns exactly `e` (the
certificate-upload failure). -/
theorem createAzureVM_certFailure_compensates_once (env : Env) (role : Role)
    (dnsName location requestId : String) (e : Err) (utr : List Event)
    (hdns : goLen dnsName ≠ 0) (hloc : goLen location ≠ 0)
    (hverify : verifyDNSname dnsName = none)
    (hcreate : env.createHostedService dnsName location "" = .ok requestId)
    (hcert : role.useCertAuth = true)
    (hupload : uploadServiceCert env dnsName role.certPath = (some e, utr)) :
    CreateAzureVM env (some role) dnsName location =
      (some e, [.createHostedService dnsName location "", .waitOp requestId] ++ utr ++
               [.deleteHostedService dnsName])
    ∧ countDeleteHostedService (CreateAzureVM env (some role) dnsName location).2 = 1 := by
  have hutr : countDeleteHostedService utr = 0 := by
    have h0 := uploadServiceCert_no_delete env dnsName role.certPath
    rw [hupload] at h0
    exact h0
  have hmain : CreateAzureVM env (some role) dnsName location =
      (some e, [.createHostedService dnsName location "", .waitOp requestId] ++ utr ++
               [.deleteHostedService dnsName]) := by
    unfold CreateAzureVM certUploadPhase
    simp [hdns, hloc, hverify, hcreate, hcert, hupload]
  refine ⟨hmain, ?_⟩
  rw [hmain]
  show countDeleteHostedService
    (([.createHostedService dnsName location "", .waitOp requestId] ++ utr) ++
      [.deleteHostedService dnsName]) = 1
  rw [countDeleteHostedService_append, countDeleteHostedService_append, hutr]
  simp [countDeleteHostedService, isDeleteHostedServiceEvent]

/-- Witness for C3 at a concrete environment: the certificate POST fails, the
workflow returns exactly that error and deletes the hosted service once. -/
theorem createAzureVM_certFailure_compensates_once_witness :
    (goLen "mydns" ≠ 0 ∧ goLen "West US" ≠ 0 ∧ verifyDNSname "mydns" = none
     ∧ envCertUploadFails.createHostedService "mydns" "West US" "" = .ok "req-hs"
     ∧ roleCert.useCertAuth = true
     ∧ uploadServiceCert envCertUploadFails "mydns" roleCert.certPath =
         (some "certificate upload failed",
          [.readFile "mycert.pem", .postRequest (azureCertificatListURL "mydns")]))
    ∧ CreateAzureVM envCertUploadFails (some roleCert) "mydns" "West US" =
        (some "certificate upload failed",
         [.createHostedService "mydns" "West US" "", .waitOp "req-hs",
          .readFile "mycert.pem", .postRequest (azureCertificatListURL "mydns"),
          .deleteHostedService "mydns"])
    ∧ countDeleteHostedService
        (CreateAzureVM envCertUploadFails (some roleCert) "mydns" "West US").2 = 1 := by
  have h := createAzureVM_certFailure_compensates_once envCertUploadFails roleCert
    "mydns" "West US" "req-hs" "certificate upload failed"
    [.readFile "mycert.pem", .postRequest (azureCertificatListURL "mydns")]
    (by decide) (by decide) (by decide) rfl rfl (by decide)
  exact ⟨⟨by decide, by decide, by decide, rfl, rfl, by decide⟩, h.1, h.2⟩

/-- C4 counterexample: at a concrete run in which the certificate upload fails
and the compensating `DeleteHostedService` call also fails, `CreateAzureVM`
returns exactly the original certificate-upload error — the compensation
failure appears nowhere in the outcome, and the whole caller-visible outcome
is identical to the run in which the compensation succeeds.  So the
compensation failure is not surfaced as a secondary/chained error. -/
theorem compensationFailure_not_surfaced_cex :
    envCompensationFails.deleteHostedService "mydns" = .error "hosted-service deletion failed"
    ∧ CreateAzureVM envCompensationFails (some roleCert) "mydns" "West US" =
        (some "certificate upload failed",
         [.createHostedService "mydns" "West US" "", .waitOp "req-hs",
          .readFile "mycert.pem", .postRequest (azureCertificatListURL "mydns"),
          .deleteHostedService "mydns"])
    ∧ CreateAzureVM envCompensationFails (some roleCert) "mydns" "West US" =
        CreateAzureVM envCertUploadFails (some roleCert) "mydns" "West US" := by
  exact ⟨rfl, by decide, by decide⟩

/-- C4 amended: the workflow discards the result of every compensating
`DeleteHostedService` call, so the caller-visible outcome of `CreateAzureVM`
(error and trace alike) is invariant under the compensation's outcome: a
compensation failure never replaces the original error, but it is silently
dropped rather than surfaced. -/
theorem createAzureVM_compensation_result_discarded (env : Env)
    (d : String → Except Err String) (cfg : Option Role) (dnsName location : String) :
    CreateAzureVM { env with deleteHostedService := d } cfg dnsName location =
      CreateAzureVM env cfg dnsName location := rfl

theorem verifyPassword_eq_none_iff (p : String) :
    verifyPassword p = none ↔
      (4 ≤ goLen p ∧ goLen p ≤ 30 ∧ p.data.any isUpperOrTitleRune = true ∧
       p.data.any isLowerRune = true ∧ p.data.any isNumericRune = true) := by
  unfold verifyPassword
  split_ifs with h1 h2 h3 h4 <;> (simp_all; try omega)

/-- C5: over ASCII passwords (where the source's byte length is the character
count and the modelled unicode-class fragments coincide with Go's), the
validator accepts exactly the passwords of length 4–30 containing at least
one upper-case, one lower-case and one numeric character; too short or too
long passwords get the length error; `"abcD1"` is accepted and `"abcde"` is
rejected with `invalidPasswordError`. -/
theorem verifyPassword_spec (p : String) (hascii : ∀ c ∈ p.data, c.val ≤ 127) :
    (verifyPassword p = none ↔
      (4 ≤ p.data.length ∧ p.data.length ≤ 30 ∧
       (∃ c ∈ p.data, isUpperOrTitleRune c) ∧ (∃ c ∈ p.data, isLowerRune c) ∧
       (∃ c ∈ p.data, isNumericRune c)))
    ∧ ((p.data.length < 4 ∨ 30 < p.data.length) →
        verifyPassword p = some invalidPasswordLengthError)
    ∧ verifyPassword "abcD1" = none
    ∧ verifyPassword "abcde" = some invalidPasswordError := by
  have hlen : goLen p = p.data.length := goLen_ascii p hascii
  refine ⟨?_, ?_, by decide, by decide⟩
  · rw [verifyPassword_eq_none_iff, hlen]
    simp [List.any_eq_true]
  · intro hout
    unfold verifyPassword
    split_ifs with h <;>
      first
      | rfl
      | (exfalso; simp at h; omega)

/-- Witness for C5: `"abcD1"` is ASCII and accepted. -/
theorem verifyPassword_spec_witness :
    (∀ c ∈ "abcD1".data, c.val ≤ 127) ∧ verifyPassword "abcD1" = none := by
  have h := verifyPassword_spec "abcD1" (by decide)
  exact ⟨by decide, h.2.2.1⟩

/-- C6: every configuration the builder returns for an empty password has ssh
password authentication disabled and carries the placeholder password
`"P@ssword1"`, which is non-empty and itself satisfies the password
validator (the builder reaches it without applying the validator). -/
theorem createLinuxProvisioningConfig_emptyPassword (env : Env)
    (dnsName userName certPath : String) (cfg : ConfigurationSet)
    (h : createLinuxProvisioningConfig env dnsName userName "" certPath = .ok cfg) :
    cfg.disableSshPasswordAuthentication = true
    ∧ cfg.userPassword = "P@ssword1"
    ∧ goLen cfg.userPassword ≠ 0
    ∧ verifyPassword cfg.userPassword = none := by
  unfold createLinuxProvisioningConfig at h
  rw [if_pos (show goLen "" = 0 by decide)] at h
  unfold linuxProvisioningWithPassword at h
  by_cases hc : goLen certPath > 0
  · rw [if_pos hc] at h
    cases hssh : createSshConfig env certPath userName with
    | error e => rw [hssh] at h; exact absurd h (by simp)
    | ok sshConfig =>
      rw [hssh] at h
      simp only [Except.ok.injEq] at h
      subst h
      exact ⟨rfl, rfl, (by decide : goLen "P@ssword1" ≠ 0),
        (by decide : verifyPassword "P@ssword1" = none)⟩
  · rw [if_neg hc] at h
    simp only [Except.ok.injEq] at h
    subst h
    exact ⟨rfl, rfl, (by decide : goLen "P@ssword1" ≠ 0),
      (by decide : verifyPassword "P@ssword1" = none)⟩

/-- Expected configuration for the C6 witness. -/
def linuxCfgEmptyPw : ConfigurationSet :=
  { emptyConfigurationSet with
    disableSshPasswordAuthentication := true,
    configurationSetType := "LinuxProvisioningConfiguration",
    hostName := "mydns", userName := "azureuser", userPassword := "P@ssword1" }

/-- Witness for C6 at a concrete call with an empty password and no
certificate. -/
theorem createLinuxProvisioningConfig_emptyPassword_witness :
    createLinuxProvisioningConfig envBase "mydns" "azureuser" "" "" = .ok linuxCfgEmptyPw
    ∧ linuxCfgEmptyPw.disableSshPasswordAuthentication = true
    ∧ linuxCfgEmptyPw.userPassword = "P@ssword1"
    ∧ verifyPassword linuxCfgEmptyPw.userPassword = none := by
  have hcall : createLinuxProvisioningConfig envBase "mydns" "azureuser" "" "" =
      .ok linuxCfgEmptyPw := rfl
  have h := createLinuxProvisioningConfig_emptyPassword envBase "mydns" "azureuser" ""
    linuxCfgEmptyPw hcall
  exact ⟨hcall, h.1, h.2.1, h.2.2.2⟩

/-- C7: whenever the certificate file's contents decode as PEM, the computed
fingerprint is exactly the SHA-1 digest of the decoded block's DER bytes,
hex-encoded in upper case with no separators (40 uppercase-hex characters),
and it depends only on the file contents: any path with the same contents
yields the same fingerprint. -/
theorem getServiceCertFingerprint_spec (env : Env) (certPath certPath2 : String)
    (contents : List Nat) (block : PemBlock) (rest : List Nat)
    (hread : env.readFile certPath = .ok contents)
    (hpem : env.pemDecode contents = (some block, rest)) :
    getServiceCertFingerprint env certPath = .ok (hexUpper (sha1 block.bytes))
    ∧ (hexUpper (sha1 block.bytes)).length = 40
    ∧ (∀ c ∈ (hexUpper (sha1 block.bytes)).data, c ∈ "0123456789ABCDEF".data)
    ∧ (env.readFile certPath2 = .ok contents →
        getServiceCertFingerprint env certPath2 = getServiceCertFingerprint env certPath) := by
  have hmain : getServiceCertFingerprint env certPath = .ok (hexUpper (sha1 block.bytes)) := by
    unfold getServiceCertFingerprint
    simp [hread, hpem]
  refine ⟨hmain, ?_, hexUpper_chars _, ?_⟩
  · rw [hexUpper_length, sha1_length]
  · intro hread2
    unfold getServiceCertFingerprint
    simp [hread, hread2]

/-- Witness for C7 at a concrete PEM payload with DER bytes `[1, 2, 3]`. -/
theorem getServiceCertFingerprint_spec_witness :
    (envBase.readFile "mycert.pem" = .ok [1, 2, 3]
     ∧ envBase.pemDecode [1, 2, 3] =
         (some { blockType := "CERTIFICATE", bytes := [1, 2, 3] }, []))
    ∧ getServiceCertFingerprint envBase "mycert.pem" =
        .ok "7037807198C22A7D2B0807371D763779A84FDFCF"
    ∧ getServiceCertFingerprint envBase "othercopy.pem" =
        getServiceCertFingerprint envBase "mycert.pem" := by
  have h := getServiceCertFingerprint_spec envBase "mycert.pem" "othercopy.pem" [1, 2, 3]
    { blockType := "CERTIFICATE", bytes := [1, 2, 3] } [] rfl rfl
  refine ⟨⟨rfl, rfl⟩, ?_, h.2.2.2 rfl⟩
  rw [h.1]
  have : hexUpper (sha1 [1, 2, 3]) = "7037807198C22A7D2B0807371D763779A84FDFCF" := by decide
  rw [this]

/-- C8: when all parameters are present, the DNS name is valid, the location
lookup succeeds, and the requested instance size is not among the location's
available role sizes, `CreateAzureVMConfiguration` fails with exactly the
size/location mismatch error, and its trace is exactly the location lookup:
no image resolution, no storage lookup/creation and no other collaborator
call has happened, so no role was built and no creation request made. -/
theorem createVMConfiguration_sizeMismatch (env : Env)
    (dnsName instanceSize imageName location : String) (locationInfo : Location)
    (hd : goLen dnsName ≠ 0) (hs : goLen instanceSize ≠ 0) (hi : goLen imageName ≠ 0)
    (hl : goLen location ≠ 0) (hverify : verifyDNSname dnsName = none)
    (hloc : env.getLocation location = .ok locationInfo)
    (hsize : locationInfo.virtualMachineRoleSizes.contains instanceSize = false) :
    CreateAzureVMConfiguration env dnsName instanceSize imageName location =
      (.error (invalidRoleSizeInLocationError instanceSize location), [.getLocation location]) := by
  have hnot : instanceSize ∉ locationInfo.virtualMachineRoleSizes := by
    simpa using hsize
  unfold CreateAzureVMConfiguration isInstanceSizeAvailableInLocation
  simp [hd, hs, hi, hl, hverify, hloc, hsize, hnot]

/-- Witness for C8: size `"A9"` is not available in the base environment's
location (which offers only `"Small"`). -/
theorem createVMConfiguration_sizeMismatch_witness :
    (goLen "mydns" ≠ 0 ∧ goLen "A9" ≠ 0 ∧ goLen "b39f27a8b8c64d52b05eac6a62ebad85" ≠ 0
     ∧ goLen "West US" ≠ 0 ∧ verifyDNSname "mydns" = none
     ∧ envBase.getLocation "West US" =
         .ok { name := "West US", virtualMachineRoleSizes := ["Small"] }
     ∧ (["Small"] : List String).contains "A9" = false)
    ∧ CreateAzureVMConfiguration envBase "mydns" "A9" "b39f27a8b8c64d52b05eac6a62ebad85" "West US" =
        (.error (invalidRoleSizeInLocationError "A9" "West US"), [.getLocation "West US"]) := by
  refine ⟨⟨by decide, by decide, by decide, by decide, by decide, rfl, by decide⟩, ?_⟩
  exact createVMConfiguration_sizeMismatch envBase "mydns" "A9" "b39f27a8b8c64d52b05eac6a62ebad85"
    "West US" { name := "West US", virtualMachineRoleSizes := ["Small"] }
    (by decide) (by decide) (by decide) (by decide) (by decide) rfl (by decide)

/-- C9: the VHD media-link derivation (a) aborts with the lookup error, having
issued only the lookup, when the storage lookup fails; (b) issues no
storage-service creation when the lookup finds an existing service; (c) when
the lookup finds none, issues exactly one creation, named
`"portalvhds" ++ uuid` from the fresh UUID, and aborts with the creation
error (before forming any URL) if that creation fails; (d) on the success
path the URL is derived from the (found) service's blob endpoint. -/
theorem getVHDMediaLink_spec (env : Env) (dnsName location : String) :
    (∀ e, env.getStorageServiceByLocation location = .error e →
       getVHDMediaLink env dnsName location = (.error e, [.getStorageByLocation location]))
    ∧ (∀ ss, env.getStorageServiceByLocation location = .ok (some ss) →
       countCreateStorage (getVHDMediaLink env dnsName location).2 = 0)
    ∧ (∀ uuid, env.getStorageServiceByLocation location = .ok none → env.newUUID = .ok uuid →
       (countCreateStorage (getVHDMediaLink env dnsName location).2 = 1
        ∧ Event.createStorage ("portalvhds" ++ uuid) location ∈
            (getVHDMediaLink env dnsName location).2
        ∧ ∀ e, env.createStorageService ("portalvhds" ++ uuid) location = .error e →
            getVHDMediaLink env dnsName location =
              (.error e, [.getStorageByLocation location,
                          .createStorage ("portalvhds" ++ uuid) location])))
    ∧ (∀ ss endpoint, env.getStorageServiceByLocation location = .ok (some ss) →
       env.getBlobEndpoint ss = .ok endpoint →
       getVHDMediaLink env dnsName location =
         (.ok (endpoint ++ "vhds/" ++ dnsName ++ "-" ++ env.now ++ ".vhd"),
          [.getStorageByLocation location, .getBlobEndpoint ss.serviceName])) := by
  refine ⟨?_, ?_, ?_, ?_⟩
  · intro e he
    unfold getVHDMediaLink
    simp [he]
  · intro ss hss
    unfold getVHDMediaLink vhdMediaLinkFromService
    cases hbe : env.getBlobEndpoint ss with
    | error e => simp [hss, hbe, countCreateStorage, isCreateStorageEvent]
    | ok endpoint => simp [hss, hbe, countCreateStorage, isCreateStorageEvent]
  · intro uuid hnone huuid
    refine ⟨?_, ?_, ?_⟩
    · unfold getVHDMediaLink vhdMediaLinkFromService
      cases hcs : env.createStorageService ("portalvhds" ++ uuid) location with
      | error e => simp [hnone, huuid, hcs, countCreateStorage, isCreateStorageEvent]
      | ok ss =>
        cases hbe : env.getBlobEndpoint ss with
        | error e => simp [hnone, huuid, hcs, hbe, countCreateStorage, isCreateStorageEvent]
        | ok endpoint => simp [hnone, huuid, hcs, hbe, countCreateStorage, isCreateStorageEvent]
    · unfold getVHDMediaLink vhdMediaLinkFromService
      cases hcs : env.createStorageService ("portalvhds" ++ uuid) location with
      | error e => simp [hnone, huuid, hcs]
      | ok ss =>
        cases hbe : env.getBlobEndpoint ss with
        | error e => simp [hnone, huuid, hcs, hbe]
        | ok endpoint => simp [hnone, huuid, hcs, hbe]
    · intro e hcse
      unfold getVHDMediaLink
      simp [hnone, huuid, hcse]
  · intro ss endpoint hss hbe
    unfold getVHDMediaLink vhdMediaLinkFromService
    simp [hss, hbe]

/-- Witness for C9: with an existing storage service no creation happens; with
none, exactly one creation happens. -/
theorem getVHDMediaLink_spec_witness :
    (envBase.getStorageServiceByLocation "West US" = .ok (some { serviceName := "existingstore" })
     ∧ countCreateStorage (getVHDMediaLink envBase "mydns" "West US").2 = 0)
    ∧ (envStorageAbsent.getStorageServiceByLocation "West US" = .ok none
       ∧ envStorageAbsent.newUUID = .ok "1234abcd"
       ∧ countCreateStorage (getVHDMediaLink envStorageAbsent "mydns" "West US").2 = 1
       ∧ Event.createStorage "portalvhds1234abcd" "West US" ∈
           (getVHDMediaLink envStorageAbsent "mydns" "West US").2) := by
  have h1 := (getVHDMediaLink_spec envBase "mydns" "West US").2.1
    { serviceName := "existingstore" } rfl
  have h2 := (getVHDMediaLink_spec envStorageAbsent "mydns" "West US").2.2.1 "1234abcd" rfl rfl
  exact ⟨⟨rfl, h1⟩, rfl, rfl, h2.1, h2.2.1⟩

theorem linuxProvisioningWithPassword_fields (env : Env) (d u c pw : String) (ds : Bool)
    (cfg : ConfigurationSet) (h : linuxProvisioningWithPassword env d u c pw ds = .ok cfg) :
    cfg.configurationSetType = "LinuxProvisioningConfiguration"
    ∧ cfg.userPassword = pw ∧ cfg.disableSshPasswordAuthentication = ds := by
  unfold linuxProvisioningWithPassword at h
  by_cases hc : goLen c > 0
  · rw [if_pos hc] at h
    cases hssh : createSshConfig env c u with
    | error e => rw [hssh] at h; exact absurd h (by simp)
    | ok sshCfg => rw [hssh] at h; simp only [Except.ok.injEq] at h; subst h; exact ⟨rfl, rfl, rfl⟩
  · rw [if_neg hc] at h
    simp only [Except.ok.injEq] at h
    subst h
    exact ⟨rfl, rfl, rfl⟩

/-- Every configuration the provisioning builder returns is a
`LinuxProvisioningConfiguration` set. -/
theorem createLinuxProvisioningConfig_type (env : Env) (d u p c : String)
    (cfg : ConfigurationSet) (h : createLinuxProvisioningConfig env d u p c = .ok cfg) :
    cfg.configurationSetType = "LinuxProvisioningConfiguration" := by
  unfold createLinuxProvisioningConfig at h
  by_cases hp : goLen p = 0
  · rw [if_pos hp] at h
    exact (linuxProvisioningWithPassword_fields env d u c "P@ssword1" true cfg h).1
  · rw [if_neg hp] at h
    cases hv : verifyPassword p with
    | some e => rw [hv] at h; exact absurd h (by simp)
    | none => rw [hv] at h; exact (linuxProvisioningWithPassword_fields env d u c p false cfg h).1

/-- C10: every successful `AddAzureLinuxProvisioningConfig` call returns a
role whose configuration sets are exactly two — a
`LinuxProvisioningConfiguration` followed by a `NetworkConfiguration` —
whatever configuration sets the input role carried (they are replaced, not
appended to). -/
theorem addLinuxProvisioningConfig_replaces_with_two_sets (env : Env) (role : Role)
    (userName password certPath : String) (sshPort : Int) (res : Option Role)
    (h : AddAzureLinuxProvisioningConfig env (some role) userName password certPath sshPort =
          .ok res) :
    ∃ r, res = some r
      ∧ r.configurationSets.length = 2
      ∧ (r.configurationSets.getD 0 emptyConfigurationSet).configurationSetType =
          "LinuxProvisioningConfiguration"
      ∧ (r.configurationSets.getD 1 emptyConfigurationSet).configurationSetType =
          "NetworkConfiguration" := by
  simp only [AddAzureLinuxProvisioningConfig] at h
  by_cases hu : goLen userName = 0
  · rw [if_pos hu] at h
    exact absurd h (by simp)
  · rw [if_neg hu] at h
    cases hpc : createLinuxProvisioningConfig env role.roleName userName password certPath with
    | error e => rw [hpc] at h; exact absurd h (by simp)
    | ok provisioningConfig =>
      rw [hpc] at h
      have hnet : createNetworkConfig osLinux sshPort =
          .ok { emptyConfigurationSet with
                configurationSetType := "NetworkConfiguration",
                inputEndpoints := [createEndpoint "ssh" "tcp" sshPort 22] } := rfl
      rw [hnet] at h
      simp only [Except.ok.injEq] at h
      subst h
      exact ⟨_, rfl, rfl,
        createLinuxProvisioningConfig_type env role.roleName userName password certPath _ hpc,
        rfl⟩

/-- A role already carrying three configuration sets, for the C10 witness. -/
def roleWithOldSets : Role :=
  { emptyRole with
    roleName := "server1",
    configurationSets := [emptyConfigurationSet, emptyConfigurationSet, emptyConfigurationSet] }

/-- The role the C10 witness call returns. -/
def roleAfterAdd : Role :=
  { emptyRole with
    roleName := "server1",
    configurationSets :=
      [{ emptyConfigurationSet with
         configurationSetType := "LinuxProvisioningConfiguration", hostName := "server1",
         userName := "azureuser", userPassword := "Passw0rd" },
       { emptyConfigurationSet with
         configurationSetType := "NetworkConfiguration",
         inputEndpoints := [createEndpoint "ssh" "tcp" 22 22] }] }

/-- Witness for C10: a role with three pre-existing configuration sets ends up
with exactly the two fresh ones. -/
theorem addLinuxProvisioningConfig_replaces_with_two_sets_witness :
    AddAzureLinuxProvisioningConfig envBase (some roleWithOldSets) "azureuser" "Passw0rd" "" 22 =
      .ok (some roleAfterAdd)
    ∧ roleWithOldSets.configurationSets.length = 3
    ∧ roleAfterAdd.configurationSets.length = 2
    ∧ (roleAfterAdd.configurationSets.getD 0 emptyConfigurationSet).configurationSetType =
        "LinuxProvisioningConfiguration"
    ∧ (roleAfterAdd.configurationSets.getD 1 emptyConfigurationSet).configurationSetType =
        "NetworkConfiguration" := by
  have hcall : AddAzureLinuxProvisioningConfig envBase (some roleWithOldSets)
      "azureuser" "Passw0rd" "" 22 = .ok (some roleAfterAdd) := rfl
  have h := addLinuxProvisioningConfig_replaces_with_two_sets envBase roleWithOldSets
    "azureuser" "Passw0rd" "" 22 (some roleAfterAdd) hcall
  obtain ⟨r, hr, h2, h3, h4⟩ := h
  injection hr with hr2
  subst hr2
  exact ⟨hcall, rfl, h2, h3, h4⟩

end AzureSdk
